import Mathlib

/-!
Verification of the concurrent resolution engine of `hosts_generator.py`.

The Python source is shallowly embedded:
* Python `str` methods used by the engine (`lower`, `split('.')`, `startswith`,
  substring `in`, truthiness) are modelled by executable Lean functions over
  `String` and `List Char`.
* Network calls (`socket.gethostbyname`, `socket.getaddrinfo`, the two
  dnspython resolvers, `socket.inet_aton`) are oracles collected in a
  `ResolveEnv`; an oracle either returns a value or raises one of the
  resolution errors caught by the source (`socket.gaierror`, `socket.timeout`,
  `OSError`).
* The process-wide mutable state touched by the engine (the module-level
  `progress_counter` dictionary, the per-batch `successful_domains` dictionary,
  and the socket default timeout set by `socket.setdefaulttimeout`) is an
  explicit `Shared` record threaded through the functions.  The locks in the
  source make each guarded section atomic, so tasks are modelled as executing
  in an arbitrary completion order given by a list of indices.
* `resolve_domain` additionally records the backend invocations it performs in
  a `List BackendCall` trace, so that statements about which backends run (and
  with which timeout) can be made.
-/

namespace HostsGen

/-! ## Models of the Python string primitives used by the engine -/

/-- Model of Python `str.lower()` (the engine only meets ASCII domain names). -/
def pyLower (s : String) : String := String.mk (s.toList.map Char.toLower)

/-- Accumulator loop for `pySplitDot`. -/
def splitDotGo : List Char → List Char → List String
  | [], cur => [String.mk cur.reverse]
  | ch :: rest, cur =>
    if ch = '.' then String.mk cur.reverse :: splitDotGo rest []
    else splitDotGo rest (ch :: cur)

/-- Model of Python `str.split('.')`: `""` gives `[""]`, separators at the ends
give empty labels, exactly as in Python. -/
def pySplitDot (s : String) : List String := splitDotGo s.toList []

/-- Model of Python `'.'.join(parts)`. -/
def joinDot : List String → String
  | [] => ""
  | [x] => x
  | x :: xs => x ++ "." ++ joinDot xs

/-- Model of the Python substring test `small in big` on strings. -/
def containsSub : List Char → List Char → Bool
  | [], small => small.isEmpty
  | big@(_ :: t), small => small.isPrefixOf big || containsSub t small

/-- Python truthiness of the `ip` variable: `None` and `""` are falsy. -/
def pyTruthy : Option String → Bool
  | none => false
  | some s => s != ""

/-! ## Resolver backends (`resolve_domain`, source lines 113-172) -/

/-- The resolution errors the source catches:
`except (socket.gaierror, socket.timeout, OSError)`. -/
inductive ResolveErr where
  | gaierror
  | timeoutErr
  | osError
deriving DecidableEq

/-- One backend invocation, with the timeout it was given. -/
inductive BackendCall where
  | gethostbyname (timeout : ℚ)
  | getaddrinfo (timeout : ℚ)
  | dnsGoogle (timeout : ℚ)
  | dnsCloudflare (timeout : ℚ)
deriving DecidableEq

/-- The network oracles available to `resolve_domain`.
`getaddrinfo` and the dnspython resolvers return the list of answers
(Python tests the lists for emptiness before using the first entry);
`hasDnspython` is the module-level `HAS_DNSPYTHON` capability flag;
`inet_aton` tells whether `socket.inet_aton` accepts a string. -/
structure ResolveEnv where
  gethostbyname : String → ℚ → Except ResolveErr String
  getaddrinfo : String → ℚ → Except ResolveErr (List String)
  hasDnspython : Bool
  dnsGoogle : String → ℚ → Except ResolveErr (List String)
  dnsCloudflare : String → ℚ → Except ResolveErr (List String)
  inet_aton : String → Bool

/-- Метод 4: final `socket.gethostbyname` retry with
`socket.setdefaulttimeout(timeout * 1.5)`, only when `timeout > 2`;
the bare `except:` swallows every error.  Returns
(result, socket default timeout, call trace). -/
def method4 (env : ResolveEnv) (domain : String) (timeout s : ℚ)
    (calls : List BackendCall) :
    Except ResolveErr (Option String) × ℚ × List BackendCall :=
  if 2 < timeout then
    let s := timeout * (3 / 2)
    let calls := calls ++ [.gethostbyname (timeout * (3 / 2))]
    match env.gethostbyname domain (timeout * (3 / 2)) with
    | .ok ip => (.ok (some ip), s, calls)
    | .error _ => (.ok none, s, calls)
  else
    (.ok none, s, calls)

/-- Second half of Метод 3: the Cloudflare (`1.1.1.1`, `1.0.0.1`) attempt,
`answers` used only when non-empty, bare `except:` falls through to Метод 4. -/
def method3b (env : ResolveEnv) (domain : String) (timeout s : ℚ)
    (calls : List BackendCall) :
    Except ResolveErr (Option String) × ℚ × List BackendCall :=
  let calls := calls ++ [.dnsCloudflare timeout]
  match env.dnsCloudflare domain timeout with
  | .ok answers =>
    if answers ≠ [] then (.ok (some (answers.headD "")), s, calls)
    else method4 env domain timeout s calls
  | .error _ => method4 env domain timeout s calls

/-- Метод 3: alternate DNS servers, only when dnspython is available; first
the Google (`8.8.8.8`, `8.8.4.4`) attempt, then the Cloudflare one. -/
def method3 (env : ResolveEnv) (domain : String) (timeout s : ℚ)
    (calls : List BackendCall) :
    Except ResolveErr (Option String) × ℚ × List BackendCall :=
  if env.hasDnspython then
    let calls := calls ++ [.dnsGoogle timeout]
    match env.dnsGoogle domain timeout with
    | .ok answers =>
      if answers ≠ [] then (.ok (some (answers.headD "")), s, calls)
      else method3b env domain timeout s calls
    | .error _ => method3b env domain timeout s calls
  else
    method4 env domain timeout s calls

/-- Метод 2: `socket.getaddrinfo(domain, None, AF_INET, SOCK_STREAM)` after
`socket.setdefaulttimeout(timeout)`; `result[0][4][0]` is returned only when
the answer list is non-empty; `except (socket.gaierror, socket.timeout,
OSError)` falls through to Метод 3. -/
def method2 (env : ResolveEnv) (domain : String) (timeout s : ℚ)
    (calls : List BackendCall) :
    Except ResolveErr (Option String) × ℚ × List BackendCall :=
  let s := timeout
  let calls := calls ++ [.getaddrinfo timeout]
  match env.getaddrinfo domain timeout with
  | .ok result =>
    if result ≠ [] then (.ok (some (result.headD "")), s, calls)
    else method3 env domain timeout s calls
  | .error .gaierror | .error .timeoutErr | .error .osError =>
    method3 env domain timeout s calls

/-- `resolve_domain(domain, timeout)` (source lines 113-172), starting with
Метод 1: `socket.setdefaulttimeout(timeout); socket.gethostbyname(domain)`.
The extra `ℚ` argument/result is the process-wide socket default timeout
before/after the call; the `List BackendCall` is the trace of backend
invocations. -/
def resolve_domain_run (env : ResolveEnv) (domain : String) (timeout : ℚ)
    (sockTimeout0 : ℚ) :
    Except ResolveErr (Option String) × ℚ × List BackendCall :=
  let s := timeout
  let calls : List BackendCall := [.gethostbyname timeout]
  match env.gethostbyname domain timeout with
  | .ok ip => (.ok (some ip), s, calls)
  | .error .gaierror | .error .timeoutErr | .error .osError =>
    method2 env domain timeout s calls

/-- The value `resolve_domain` hands to its caller. -/
def resolve_domain (env : ResolveEnv) (domain : String) (timeout : ℚ) :
    Except ResolveErr (Option String) := (resolve_domain_run env domain timeout 0).1

/-! Spec-shaped descriptions of the backend pipeline, for comparison with
`resolve_domain_run`. -/

/-- Read a single-address backend outcome as an optional answer. -/
def exOk (x : Except ResolveErr String) : Option String :=
  match x with
  | .ok ip => some ip
  | .error _ => none

/-- Read a list-of-answers backend outcome as an optional answer: an error or
an empty answer list is no answer. -/
def exList (x : Except ResolveErr (List String)) : Option String :=
  match x with
  | .ok answers => if answers ≠ [] then some (answers.headD "") else none
  | .error _ => none

/-- The alternate-DNS part of the chain: Google then Cloudflare when the
dnspython capability is available, nothing otherwise. -/
def dnsChain (env : ResolveEnv) (domain : String) (timeout : ℚ) :
    Option String :=
  if env.hasDnspython then
    (exList (env.dnsGoogle domain timeout)).orElse fun _ =>
      exList (env.dnsCloudflare domain timeout)
  else none

/-- The first-success chain of the first three strategies (no retry). -/
def backendChain3 (env : ResolveEnv) (domain : String) (timeout : ℚ) :
    Option String :=
  (exOk (env.gethostbyname domain timeout)).orElse fun _ =>
    (exList (env.getaddrinfo domain timeout)).orElse fun _ =>
      dnsChain env domain timeout

/-- The ordered first-success chain of the claims: system resolution, the
address-info lookup, the two alternate-DNS attempts when available, and the
final 1.5×-timeout retry guarded by `timeout > 2`. -/
def backendChain (env : ResolveEnv) (domain : String) (timeout : ℚ) :
    Option String :=
  (exOk (env.gethostbyname domain timeout)).orElse fun _ =>
    (exList (env.getaddrinfo domain timeout)).orElse fun _ =>
      (dnsChain env domain timeout).orElse fun _ =>
        if 2 < timeout then exOk (env.gethostbyname domain (timeout * (3 / 2)))
        else none

/-- Is a trace entry a `socket.gethostbyname` invocation? -/
def isGhbn : BackendCall → Bool
  | .gethostbyname _ => true
  | _ => false

/-! ## `find_similar_domains` (source lines 175-230) -/

/-- The scan over (at most the first 1000 of) the successful-domain entries,
carrying the `suggestions` accumulator exactly as the Python loop does:
strategy 1 (`разный TLD`) does `suggestions.insert(0, ...)`, strategies 2 and 3
(`похожее имя`, `частичное совпадение`) append; each addition returns
`suggestions[:max_suggestions]` as soon as the bound is reached, and the final
`return` also truncates. -/
def fsd_loop (base_name tld : String) (max_suggestions : ℕ) :
    List (String × String) → List (String × String × String) →
    List (String × String × String)
  | [], suggestions => suggestions.take max_suggestions
  | (success_domain, success_ip) :: rest, suggestions =>
    let success_domain_lower := pyLower success_domain
    let success_parts := pySplitDot success_domain_lower
    if success_parts.length < 2 then
      fsd_loop base_name tld max_suggestions rest suggestions
    else
      let success_base := joinDot success_parts.dropLast
      let success_tld := success_parts.getLastD ""
      if base_name = success_base ∧ tld ≠ success_tld then
        let suggestions := (success_domain, success_ip, "разный TLD") :: suggestions
        if max_suggestions ≤ suggestions.length then suggestions.take max_suggestions
        else fsd_loop base_name tld max_suggestions rest suggestions
      else if base_name ≠ success_base ∧ suggestions.length < max_suggestions then
        if (success_base.toList.isPrefixOf base_name.toList ∨
              base_name.toList.isPrefixOf success_base.toList) ∧
            ((base_name.length : ℤ) - (success_base.length : ℤ)).natAbs ≤ 3 then
          let suggestions := suggestions ++ [(success_domain, success_ip, "похожее имя")]
          if max_suggestions ≤ suggestions.length then suggestions.take max_suggestions
          else fsd_loop base_name tld max_suggestions rest suggestions
        else if ((base_name.length : ℤ) - (success_base.length : ℤ)).natAbs ≤ 5 then
          if containsSub success_base.toList base_name.toList ∨
              containsSub base_name.toList success_base.toList then
            let suggestions := suggestions ++ [(success_domain, success_ip, "частичное совпадение")]
            if max_suggestions ≤ suggestions.length then suggestions.take max_suggestions
            else fsd_loop base_name tld max_suggestions rest suggestions
          else fsd_loop base_name tld max_suggestions rest suggestions
        else fsd_loop base_name tld max_suggestions rest suggestions
      else fsd_loop base_name tld max_suggestions rest suggestions

/-- `find_similar_domains` after `domain_lower = domain.lower()` has been
computed: split into parts, bail out below two labels, limit the scan to
`min(1000, len(successful_domains))` entries, run the loop. -/
def fsd_after_lower (domain_lower : String)
    (successful_domains : List (String × String)) (max_suggestions : ℕ) :
    List (String × String × String) :=
  let parts := pySplitDot domain_lower
  if parts.length < 2 then []
  else
    let base_name := joinDot parts.dropLast
    let tld := parts.getLastD ""
    let max_search := min 1000 successful_domains.length
    fsd_loop base_name tld max_suggestions (successful_domains.take max_search) []

/-- `find_similar_domains(domain, successful_domains, max_suggestions)`
(source lines 175-230); the successful-domain dictionary is modelled as an
association list in insertion order, as Python dictionaries iterate. -/
def find_similar_domains (domain : String)
    (successful_domains : List (String × String)) (max_suggestions : ℕ) :
    List (String × String × String) :=
  fsd_after_lower (pyLower domain) successful_domains max_suggestions

/-! ## `try_domain_variants` (source lines 235-271) -/

/-- Популярные TLD для попытки (source line 245). -/
def common_tlds : List String :=
  ["com", "net", "org", "ru", "io", "co", "info", "top", "xyz", "site"]

/-- The subdomain-stripping attempt at the end of `try_domain_variants`: when
the domain has more than two labels, resolve `parts[-2].parts[-1]` with
timeout 1; `if ip: return ip`, any error or falsy answer yields `None`.
Returns the answer plus the updated socket default timeout. -/
def tdv_sub (env : ResolveEnv) (parts : List String) (s : ℚ) :
    Option String × ℚ :=
  if 2 < parts.length then
    let main_domain := parts.getD (parts.length - 2) "" ++ "." ++ parts.getLastD ""
    match resolve_domain_run env main_domain 1 s with
    | (.ok ip, s1, _) => (if pyTruthy ip then ip else none, s1)
    | (.error _, s1, _) => (none, s1)
  else (none, s)

/-- The TLD loop of `try_domain_variants`: for each candidate TLD other than
the original one, resolve `base_name.tld` with timeout 1 and return the first
truthy answer; errors `continue`; afterwards fall through to `tdv_sub`. -/
def tdv_loop (env : ResolveEnv) (base_name original_tld : String)
    (parts : List String) : List String → ℚ → Option String × ℚ
  | [], s => tdv_sub env parts s
  | tld :: rest, s =>
    if tld = original_tld then tdv_loop env base_name original_tld parts rest s
    else
      let variant := base_name ++ "." ++ tld
      match resolve_domain_run env variant 1 s with
      | (.ok ip, s1, _) =>
        if pyTruthy ip then (ip, s1)
        else tdv_loop env base_name original_tld parts rest s1
      | (.error _, s1, _) => tdv_loop env base_name original_tld parts rest s1

/-- `try_domain_variants(domain, timeout)` (source lines 235-271).  The
`timeout` parameter is accepted but, as in the source, every attempt uses the
fast timeout 1.  The extra `ℚ` threads the socket default timeout. -/
def try_domain_variants (env : ResolveEnv) (domain : String) (timeout : ℚ)
    (s : ℚ) : Option String × ℚ :=
  let parts := pySplitDot domain
  if parts.length < 2 then (none, s)
  else
    let base_name := joinDot parts.dropLast
    let original_tld := parts.getLastD ""
    tdv_loop env base_name original_tld parts common_tlds s

/-- Spec-shaped list of the variant domains the claims say are attempted, in
order: `base-name.candidate-TLD` for each candidate TLD other than the
original, then (for more than two labels) the last two labels. -/
def spec_variant_domains (domain : String) : List String :=
  let parts := pySplitDot domain
  let base_name := joinDot parts.dropLast
  let original_tld := parts.getLastD ""
  (common_tlds.filter (fun tld => tld ≠ original_tld)).map
      (fun tld => base_name ++ "." ++ tld)
    ++ (if 2 < parts.length then
          [parts.getD (parts.length - 2) "" ++ "." ++ parts.getLastD ""]
        else [])

/-- First truthy answer in a list of attempt outcomes, `none` otherwise. -/
def firstTruthy : List (Option String) → Option String
  | [] => none
  | o :: rest => if pyTruthy o then o else firstTruthy rest

/-- Read a `resolve_domain` outcome the way a bare `except` caller does: an
uncaught error counts as no answer. -/
def exRes (x : Except ResolveErr (Option String)) : Option String :=
  match x with
  | .ok r => r
  | .error _ => none

/-! ## Worker-count selection (source lines 322-330 and 638-662) -/

/-- The `max_workers is None` auto-selection inside `resolve_domains`
(source lines 323-330). -/
def auto_max_workers (total : ℕ) (max_workers : Option ℕ) : ℕ :=
  match max_workers with
  | some w => w
  | none => if total < 100 then 10 else if total < 1000 then 30 else 50

/-- The `(timeout, max_workers)` table of `main` (source lines 639-650). -/
def main_tuning (total_domains : ℕ) : ℚ × ℕ :=
  if total_domains < 100 then (5, 10)
  else if total_domains < 1000 then (3, 30)
  else if total_domains < 10000 then (3, 50)
  else (2, 100)

/-- `max_workers = max(1, min(max_workers, 200))` applied to a user-supplied
worker count in `main` (source line 662). -/
def clamp_user_workers (w : ℤ) : ℤ := max 1 (min w 200)

/-! ## The engine: shared state, `resolve_domain_wrapper`, `resolve_domains`
(source lines 34-36, 274-314, 317-431) -/

/-- The mutable state shared across workers: the module-level
`progress_counter` dictionary (`total`, `success`, `failed`), the per-batch
`successful_domains` dictionary, and the process-wide socket default timeout. -/
structure Shared where
  total : ℕ
  success : ℕ
  failed : ℕ
  successful_domains : List (String × String)
  sockTimeout : ℚ
deriving DecidableEq

/-- `resolve_domain` viewed against the full shared state: its body touches
neither `progress_counter` nor `successful_domains`; the only shared thing it
writes is the process-wide socket default timeout via
`socket.setdefaulttimeout`. -/
def resolve_domain_shared (env : ResolveEnv) (domain : String) (timeout : ℚ)
    (st : Shared) : Except ResolveErr (Option String) × Shared :=
  match resolve_domain_run env domain timeout st.sockTimeout with
  | (r, s1, _) => (r, { st with sockTimeout := s1 })

/-- A Python value appearing in a task argument tuple.  `dictRef` is the
reference to the shared `successful_domains` dictionary; `lock` a
`threading.Lock`. -/
inductive PyVal where
  | str (s : String)
  | rat (q : ℚ)
  | nat (n : ℕ)
  | dictRef
  | lock
deriving DecidableEq

/-- Exceptions at wrapper/engine level: the `ValueError` of tuple unpacking,
the `KeyError` of `results_dict[i]`, and an uncaught resolver error. -/
inductive WrapErr where
  | valueError
  | keyError
  | uncaught (e : ResolveErr)
deriving DecidableEq

/-- `resolve_domain_wrapper(args)` (source lines 274-314).  The first Python
statement unpacks `args` into five variables; anything but a five-element
tuple raises `ValueError` before any other effect.  The body: direct
resolution, then (when falsy) the similar-domain scan over a locked copy of
the registry taking the first `inet_aton`-valid suggested IP, then the
variant probe; finally the counters are updated under `progress_lock` and
`(domain, ip, index)` is returned. -/
def resolve_domain_wrapper (env : ResolveEnv) (args : List PyVal) (st : Shared) :
    Except WrapErr (String × Option String × ℕ) × Shared :=
  match args with
  | [.str domain, .rat timeout, .nat index, .dictRef, .lock] =>
    match resolve_domain_run env domain timeout st.sockTimeout with
    | (.error e, s1, _) => (.error (.uncaught e), { st with sockTimeout := s1 })
    | (.ok ip0, s1, _) =>
      let st1 := { st with sockTimeout := s1 }
      let step :=
        if pyTruthy ip0 then (ip0, st1)
        else
          let successful_copy := st1.successful_domains
          let similar := find_similar_domains domain successful_copy 3
          let ip1 :=
            match similar.find? (fun x => env.inet_aton x.2.1) with
            | some x => some x.2.1
            | none => ip0
          if pyTruthy ip1 then (ip1, st1)
          else
            let pr := try_domain_variants env domain 1 st1.sockTimeout
            (pr.1, { st1 with sockTimeout := pr.2 })
      let ip := step.1
      let st2 := step.2
      let st3 := { st2 with
        total := st2.total + 1,
        success := st2.success + (if pyTruthy ip then 1 else 0),
        failed := st2.failed + (if pyTruthy ip then 0 else 1) }
      (.ok (domain, ip, index), st3)
  | _ => (.error .valueError, st)

/-- Execute the submitted tasks one by one in the given completion order
(each task's shared-state accesses are lock-protected in the source, so an
arbitrary serialization models any concurrent schedule).  Out-of-range
indices read the empty tuple. -/
def run_tasks (env : ResolveEnv) (domain_args : List (List PyVal)) :
    List ℕ → Shared →
    List (Except WrapErr (String × Option String × ℕ)) × Shared
  | [], st => ([], st)
  | i :: rest, st =>
    match resolve_domain_wrapper env (domain_args.getD i []) st with
    | (r, st1) =>
      match run_tasks env domain_args rest st1 with
      | (rs, st2) => (r :: rs, st2)

/-- The `for future in as_completed(...)` loop: `future.result()` re-raises
the first task exception; otherwise `results_dict[index] = (domain, ip)`. -/
def collect_results :
    List (Except WrapErr (String × Option String × ℕ)) →
    List (ℕ × (String × Option String)) →
    Except WrapErr (List (ℕ × (String × Option String)))
  | [], acc => .ok acc
  | .error e :: _, _ => .error e
  | .ok (domain, ip, index) :: rest, acc =>
    collect_results rest (acc ++ [(index, (domain, ip))])

/-- `[results_dict[i] for i in range(total)]`; a missing index raises
`KeyError`. -/
def order_results_go (results_dict : List (ℕ × (String × Option String))) :
    List ℕ → Except WrapErr (List (String × Option String))
  | [] => .ok []
  | i :: rest =>
    match results_dict.lookup i with
    | some r =>
      match order_results_go results_dict rest with
      | .ok rs => .ok (r :: rs)
      | .error e => .error e
    | none => .error .keyError

/-- Restore the input order from the recorded indices. -/
def order_results (total : ℕ)
    (results_dict : List (ℕ × (String × Option String))) :
    Except WrapErr (List (String × Option String)) :=
  order_results_go results_dict (List.range total)

/-- `resolve_domains(domains, timeout, max_workers, use_similar_fallback)`
(source lines 317-431): choose the worker count when none is given, reset the
counters, create the fresh `successful_domains` dictionary, build
`domain_args = [(domain, timeout, i, successful_domains) for i, domain in
enumerate(domains)]` (four-element tuples), run all tasks, collect the
futures in completion order, and sort the results by index. -/
def resolve_domains (env : ResolveEnv) (completion : List ℕ)
    (domains : List String) (timeout : ℚ) (max_workers : Option ℕ)
    (use_similar_fallback : Bool) (st0 : Shared) :
    Except WrapErr (List (String × Option String)) × Shared :=
  let total := domains.length
  let _max_workers := auto_max_workers total max_workers
  let _fallback := use_similar_fallback
  let st := { st0 with total := 0, success := 0, failed := 0,
                       successful_domains := [] }
  let domain_args := domains.enum.map
    (fun p => [PyVal.str p.2, PyVal.rat timeout, PyVal.nat p.1, PyVal.dictRef])
  match run_tasks env domain_args completion st with
  | (futures, st1) =>
    match collect_results futures [] with
    | .error e => (.error e, st1)
    | .ok results_dict => (order_results total results_dict, st1)

/-! ## Spec-side predicates used in the claim statements -/

/-- All `разный TLD` (different-TLD) suggestions form a front segment of the
list: the list splits as a block of different-TLD entries followed by a block
of non-different-TLD entries. -/
def tldFront (l : List (String × String × String)) : Prop :=
  ∃ a b, l = a ++ b ∧ (∀ x ∈ a, x.2.2 = "разный TLD") ∧
    (∀ x ∈ b, x.2.2 ≠ "разный TLD")

/-- Two backend outcomes agree up to the identity of the raised error: equal
answers, or both raising (possibly different) resolution errors. -/
def exAgree {α : Type} : Except ResolveErr α → Except ResolveErr α → Prop
  | .ok a, .ok b => a = b
  | .error _, .error _ => True
  | _, _ => False

/-- Two environments agree up to which resolution error each backend raises. -/
def EnvAgree (e1 e2 : ResolveEnv) : Prop :=
  e1.hasDnspython = e2.hasDnspython ∧
  (∀ d t, exAgree (e1.gethostbyname d t) (e2.gethostbyname d t)) ∧
  (∀ d t, exAgree (e1.getaddrinfo d t) (e2.getaddrinfo d t)) ∧
  (∀ d t, exAgree (e1.dnsGoogle d t) (e2.dnsGoogle d t)) ∧
  (∀ d t, exAgree (e1.dnsCloudflare d t) (e2.dnsCloudflare d t))

/-! ## Concrete instances used by witnesses and counterexamples -/

/-- An environment in which every backend raises and no string passes
`inet_aton`. -/
def envNone : ResolveEnv where
  gethostbyname := fun _ _ => .error .gaierror
  getaddrinfo := fun _ _ => .error .gaierror
  hasDnspython := true
  dnsGoogle := fun _ _ => .error .timeoutErr
  dnsCloudflare := fun _ _ => .error .osError
  inet_aton := fun _ => false

/-- Like `envNone` but with different (still failing) error kinds. -/
def envNone' : ResolveEnv where
  gethostbyname := fun _ _ => .error .osError
  getaddrinfo := fun _ _ => .error .timeoutErr
  hasDnspython := true
  dnsGoogle := fun _ _ => .error .gaierror
  dnsCloudflare := fun _ _ => .error .gaierror
  inet_aton := fun _ => false

/-- An environment whose system resolver answers `1.2.3.4` for everything. -/
def envOk : ResolveEnv where
  gethostbyname := fun _ _ => .ok "1.2.3.4"
  getaddrinfo := fun _ _ => .ok ["1.2.3.4"]
  hasDnspython := false
  dnsGoogle := fun _ _ => .error .gaierror
  dnsCloudflare := fun _ _ => .error .gaierror
  inet_aton := fun _ => true

/-- Initial shared state: zero counters, empty registry, default timeout 0. -/
def stInit : Shared where
  total := 0
  success := 0
  failed := 0
  successful_domains := []
  sockTimeout := 0

/-! ## Helper lemmas about the backend pipeline -/

/-- The incoming socket default timeout influences neither the answer, nor the
final default timeout, nor the trace: Метод 1 overwrites it first thing. -/
theorem resolve_domain_run_irrel (env : ResolveEnv) (d : String) (t s s' : ℚ) :
    resolve_domain_run env d t s = resolve_domain_run env d t s' := rfl

theorem method4_fst (env : ResolveEnv) (d : String) (t s : ℚ)
    (c : List BackendCall) :
    (method4 env d t s c).1 =
      .ok (if 2 < t then exOk (env.gethostbyname d (t * (3 / 2))) else none) := by
  by_cases h : 2 < t
  · simp only [method4, if_pos h]
    cases henv : env.gethostbyname d (t * (3 / 2)) <;> simp [exOk]
  · simp [method4, if_neg h]

theorem method3b_fst (env : ResolveEnv) (d : String) (t s : ℚ)
    (c : List BackendCall) :
    (method3b env d t s c).1 =
      .ok ((exList (env.dnsCloudflare d t)).orElse fun _ =>
        if 2 < t then exOk (env.gethostbyname d (t * (3 / 2))) else none) := by
  unfold method3b
  cases henv : env.dnsCloudflare d t with
  | ok answers =>
    by_cases ha : answers = []
    · simp [ha, exList, method4_fst, Option.orElse]
    · simp [ha, exList, Option.orElse]
  | error e => simp [exList, method4_fst, Option.orElse]

theorem method3_fst (env : ResolveEnv) (d : String) (t s : ℚ)
    (c : List BackendCall) :
    (method3 env d t s c).1 =
      .ok ((dnsChain env d t).orElse fun _ =>
        if 2 < t then exOk (env.gethostbyname d (t * (3 / 2))) else none) := by
  unfold method3 dnsChain
  by_cases hd : env.hasDnspython
  · simp only [if_pos hd]
    cases henv : env.dnsGoogle d t with
    | ok answers =>
      by_cases ha : answers = []
      · simp [ha, exList, method3b_fst, Option.orElse]
      · simp [ha, exList, Option.orElse]
    | error e => simp [exList, method3b_fst, Option.orElse]
  · simp [if_neg hd, method4_fst, Option.orElse]

theorem method2_fst (env : ResolveEnv) (d : String) (t s : ℚ)
    (c : List BackendCall) :
    (method2 env d t s c).1 =
      .ok ((exList (env.getaddrinfo d t)).orElse fun _ =>
        (dnsChain env d t).orElse fun _ =>
          if 2 < t then exOk (env.gethostbyname d (t * (3 / 2))) else none) := by
  unfold method2
  cases henv : env.getaddrinfo d t with
  | ok result =>
    by_cases ha : result = []
    · simp [ha, exList, method3_fst, Option.orElse]
    · simp [ha, exList, Option.orElse]
  | error e => cases e <;> simp [exList, method3_fst, Option.orElse]

/-- The answer of `resolve_domain` is always `.ok` of the spec-shaped
first-success chain. -/
theorem resolve_domain_run_fst (env : ResolveEnv) (d : String) (t s : ℚ) :
    (resolve_domain_run env d t s).1 = .ok (backendChain env d t) := by
  unfold resolve_domain_run backendChain
  cases henv : env.gethostbyname d t with
  | ok ip => simp [exOk, Option.orElse]
  | error e => cases e <;> simp [exOk, method2_fst, Option.orElse]

theorem method4_state (env : ResolveEnv) (d : String) (t s : ℚ)
    (c : List BackendCall) :
    (method4 env d t s c).2.1 = if 2 < t then t * (3 / 2) else s := by
  by_cases h : 2 < t
  · simp only [method4, if_pos h]
    cases henv : env.gethostbyname d (t * (3 / 2)) <;> simp
  · simp [method4, if_neg h]

theorem method3b_state (env : ResolveEnv) (d : String) (t s : ℚ)
    (c : List BackendCall) :
    (method3b env d t s c).2.1 =
      if exList (env.dnsCloudflare d t) = none then
        (if 2 < t then t * (3 / 2) else s)
      else s := by
  unfold method3b
  cases henv : env.dnsCloudflare d t with
  | ok answers =>
    by_cases ha : answers = []
    · simp [ha, exList, method4_state]
    · simp [ha, exList]
  | error e => simp [exList, method4_state]

theorem method3_state (env : ResolveEnv) (d : String) (t s : ℚ)
    (c : List BackendCall) :
    (method3 env d t s c).2.1 =
      if dnsChain env d t = none then (if 2 < t then t * (3 / 2) else s)
      else s := by
  unfold method3 dnsChain
  by_cases hd : env.hasDnspython
  · simp only [if_pos hd]
    cases henv : env.dnsGoogle d t with
    | ok answers =>
      by_cases ha : answers = []
      · simp [ha, exList, method3b_state, Option.orElse]
      · simp [ha, exList, Option.orElse]
    | error e => simp [exList, method3b_state, Option.orElse]
  · simp [if_neg hd, method4_state]

theorem method2_state (env : ResolveEnv) (d : String) (t s : ℚ)
    (c : List BackendCall) :
    (method2 env d t s c).2.1 =
      if ((exList (env.getaddrinfo d t)).orElse fun _ => dnsChain env d t)
          = none then
        (if 2 < t then t * (3 / 2) else t)
      else t := by
  unfold method2
  cases henv : env.getaddrinfo d t with
  | ok result =>
    by_cases ha : result = []
    · simp [ha, exList, method3_state, Option.orElse]
    · simp [ha, exList, Option.orElse]
  | error e => cases e <;> simp [exList, method3_state, Option.orElse]

/-- The socket default timeout after a `resolve_domain` call: `timeout` in
general, `timeout * 1.5` exactly when the first three strategies fail and
`timeout > 2` sends the pipeline into the final retry. -/
theorem resolve_domain_run_state (env : ResolveEnv) (d : String) (t s : ℚ) :
    (resolve_domain_run env d t s).2.1 =
      if backendChain3 env d t = none ∧ 2 < t then t * (3 / 2) else t := by
  have key : (resolve_domain_run env d t s).2.1 =
      if backendChain3 env d t = none then (if 2 < t then t * (3 / 2) else t)
      else t := by
    unfold resolve_domain_run backendChain3
    cases henv : env.gethostbyname d t with
    | ok ip => simp [exOk, Option.orElse]
    | error e => cases e <;> simp [exOk, method2_state, Option.orElse]
  rw [key]
  by_cases h3 : backendChain3 env d t = none
  · by_cases h2 : 2 < t
    · simp [h3, h2]
    · simp [h3, h2]
  · simp [h3]

theorem method4_count (env : ResolveEnv) (d : String) (t s : ℚ)
    (c : List BackendCall) (h : ¬ 2 < t) :
    ((method4 env d t s c).2.2).countP isGhbn = c.countP isGhbn := by
  simp [method4, if_neg h]

theorem method3b_count (env : ResolveEnv) (d : String) (t s : ℚ)
    (c : List BackendCall) (h : ¬ 2 < t) :
    ((method3b env d t s c).2.2).countP isGhbn = c.countP isGhbn := by
  unfold method3b
  cases henv : env.dnsCloudflare d t with
  | ok answers =>
    by_cases ha : answers = []
    · simp [ha, method4_count env d t s _ h, List.countP_append, isGhbn]
    · simp [ha, List.countP_append, isGhbn]
  | error e => simp [method4_count env d t s _ h, List.countP_append, isGhbn]

theorem method3_count (env : ResolveEnv) (d : String) (t s : ℚ)
    (c : List BackendCall) (h : ¬ 2 < t) :
    ((method3 env d t s c).2.2).countP isGhbn = c.countP isGhbn := by
  unfold method3
  by_cases hd : env.hasDnspython
  · simp only [if_pos hd]
    cases henv : env.dnsGoogle d t with
    | ok answers =>
      by_cases ha : answers = []
      · simp [ha, method3b_count env d t s _ h, List.countP_append, isGhbn]
      · simp [ha, List.countP_append, isGhbn]
    | error e => simp [method3b_count env d t s _ h, List.countP_append, isGhbn]
  · simp [if_neg hd, method4_count env d t s _ h]

theorem method2_count (env : ResolveEnv) (d : String) (t s : ℚ)
    (c : List BackendCall) (h : ¬ 2 < t) :
    ((method2 env d t s c).2.2).countP isGhbn = c.countP isGhbn := by
  unfold method2
  cases henv : env.getaddrinfo d t with
  | ok result =>
    by_cases ha : result = []
    · simp [ha, method3_count env d t t _ h, List.countP_append, isGhbn]
    · simp [ha, List.countP_append, isGhbn]
  | error e => cases e <;> simp [method3_count env d t t _ h, List.countP_append, isGhbn]

/-- With `timeout ≤ 2` the trace holds exactly one `socket.gethostbyname`
invocation: Метод 1's one; the final retry is never attempted. -/
theorem resolve_domain_run_count (env : ResolveEnv) (d : String) (t s : ℚ)
    (h : ¬ 2 < t) :
    ((resolve_domain_run env d t s).2.2).countP isGhbn = 1 := by
  unfold resolve_domain_run
  cases henv : env.gethostbyname d t with
  | ok ip => simp [List.countP_cons, isGhbn]
  | error e =>
    cases e <;>
      simp [method2_count env d t t _ h, List.countP_cons, isGhbn]

theorem exOk_congr {x y : Except ResolveErr String} (h : exAgree x y) :
    exOk x = exOk y := by
  cases x <;> cases y <;> simp_all [exAgree, exOk]

theorem exList_congr {x y : Except ResolveErr (List String)} (h : exAgree x y) :
    exList x = exList y := by
  cases x <;> cases y <;> simp_all [exAgree, exList]

theorem backendChain_congr {e1 e2 : ResolveEnv} (h : EnvAgree e1 e2)
    (d : String) (t : ℚ) : backendChain e1 d t = backendChain e2 d t := by
  obtain ⟨hd, h1, h2, h3, h4⟩ := h
  unfold backendChain dnsChain
  simp only [hd, exOk_congr (h1 d t), exList_congr (h2 d t),
    exList_congr (h3 d t), exList_congr (h4 d t),
    exOk_congr (h1 d (t * (3 / 2)))]

/-! ## The claims -/

/-- C5, counterexample: `resolve_domain` is not free of shared-state effects.
With every backend failing and timeout 3 the call changes the process-wide
socket default timeout (`socket.setdefaulttimeout`), a piece of global
configuration observable by every other component. -/
theorem claim_C5_counterexample :
    (resolve_domain_shared envNone "example.com" 3 stInit).2.sockTimeout ≠
      stInit.sockTimeout := by
  have h : (resolve_domain_shared envNone "example.com" 3 stInit).2.sockTimeout
      = 3 * (3 / 2) := rfl
  have h0 : stInit.sockTimeout = 0 := rfl
  rw [h, h0]
  norm_num

/-- C5, amended: a `resolve_domain` call mutates neither the
successful-domain registry nor the progress counters, but it does set the
process-wide socket default timeout: to the caller's timeout, or to 1.5×
the timeout when the final retry runs (first three strategies failed and
timeout > 2). -/
theorem claim_C5_frame (env : ResolveEnv) (d : String) (t : ℚ) (st : Shared) :
    (resolve_domain_shared env d t st).2.successful_domains =
        st.successful_domains ∧
    (resolve_domain_shared env d t st).2.total = st.total ∧
    (resolve_domain_shared env d t st).2.success = st.success ∧
    (resolve_domain_shared env d t st).2.failed = st.failed ∧
    (resolve_domain_shared env d t st).2.sockTimeout =
      (if backendChain3 env d t = none ∧ 2 < t then t * (3 / 2) else t) := by
  refine ⟨rfl, rfl, rfl, rfl, ?_⟩
  show (resolve_domain_run env d t st.sockTimeout).2.1 = _
  exact resolve_domain_run_state env d t st.sockTimeout

/-- C6: `resolve_domain` tries its backends strictly in order with
first-success semantics — system resolution, the IPv4/stream address-info
lookup, the Google then Cloudflare alternate-DNS attempts when dnspython is
available, and a final system retry at `timeout * 1.5` guarded by
`timeout > 2`; and for `timeout ≤ 2` the trace contains exactly the one
initial `socket.gethostbyname` call, so the fourth step is never attempted. -/
theorem claim_C6_backend_pipeline (env : ResolveEnv) (d : String) (t s : ℚ) :
    (resolve_domain_run env d t s).1 = .ok (backendChain env d t) ∧
    (t ≤ 2 → ((resolve_domain_run env d t s).2.2).countP isGhbn = 1) := by
  refine ⟨resolve_domain_run_fst env d t s, fun hle => ?_⟩
  exact resolve_domain_run_count env d t s (not_lt.mpr hle)

/-- Witness for C6 at a concrete input with `timeout = 2`. -/
theorem claim_C6_backend_pipeline_witness :
    ((resolve_domain_run envNone "a.com" 2 0).2.2).countP isGhbn = 1 :=
  (claim_C6_backend_pipeline envNone "a.com" 2 0).2 (le_refl 2)

/-- C9: `resolve_domain` never propagates an exception — its answer is always
`.ok` of the backend chain — and a resolution error raised by a backend is
treated exactly like absence: two environments that agree up to which
resolution error each backend raises produce the same answer, so the pipeline
just moves on to the next backend. -/
theorem claim_C9_no_propagation (e1 e2 : ResolveEnv) (d : String) (t : ℚ) :
    resolve_domain e1 d t = .ok (backendChain e1 d t) ∧
    (EnvAgree e1 e2 → resolve_domain e1 d t = resolve_domain e2 d t) := by
  constructor
  · exact resolve_domain_run_fst e1 d t 0
  · intro h
    unfold resolve_domain
    rw [resolve_domain_run_fst, resolve_domain_run_fst, backendChain_congr h]

/-- Witness for C9: two all-failing environments raising different error
kinds at every backend produce the same answer. -/
theorem claim_C9_no_propagation_witness :
    resolve_domain envNone "a.com" 3 = resolve_domain envNone' "a.com" 3 :=
  (claim_C9_no_propagation envNone envNone' "a.com" 3).2
    ⟨rfl, fun _ _ => trivial, fun _ _ => trivial, fun _ _ => trivial,
      fun _ _ => trivial⟩

/-- C4, counterexample: with 10000 domains and no caller-supplied worker
count, `resolve_domains` chooses 50 workers, not the 100 the claim states
(its auto-selection has no 10000 tier; that tier lives in `main`). -/
theorem claim_C4_counterexample :
    auto_max_workers 10000 none = 50 ∧ auto_max_workers 10000 none ≠ 100 := by
  decide

/-- C4, amended: when no worker count is supplied, `resolve_domains` chooses
<100 → 10, <1000 → 30, otherwise 50; the four-tier table ending in 100
(<100 → 10, <1000 → 30, <10000 → 50, else 100) belongs to `main`, which always
passes the count to the engine; a user-supplied override in `main` is clamped
to the range 1–200. -/
theorem claim_C4_worker_tiers (total : ℕ) (w : ℤ) :
    auto_max_workers total none =
      (if total < 100 then 10 else if total < 1000 then 30 else 50) ∧
    (main_tuning total).2 =
      (if total < 100 then 10 else if total < 1000 then 30
       else if total < 10000 then 50 else 100) ∧
    1 ≤ clamp_user_workers w ∧ clamp_user_workers w ≤ 200 ∧
    (1 ≤ w → w ≤ 200 → clamp_user_workers w = w) := by
  refine ⟨rfl, ?_, ?_, ?_, fun h1 h2 => ?_⟩
  · unfold main_tuning
    split_ifs <;> rfl
  · unfold clamp_user_workers
    omega
  · unfold clamp_user_workers
    omega
  · unfold clamp_user_workers
    omega

/-- Witness for C4 (amended) at the in-range override 150. -/
theorem claim_C4_worker_tiers_witness :
    (1 : ℤ) ≤ 150 ∧ (150 : ℤ) ≤ 200 ∧ clamp_user_workers 150 = 150 :=
  ⟨by norm_num, by norm_num,
    (claim_C4_worker_tiers 0 150).2.2.2.2 (by norm_num) (by norm_num)⟩

/-! ## Case-insensitivity of the similar-domain scan -/

theorem char_toNat_ofNat_valid {n : ℕ} (h : n.isValidChar) :
    (Char.ofNat n).toNat = n := by
  rw [Char.ofNat, dif_pos h]
  rfl

theorem char_toLower_idem (c : Char) : c.toLower.toLower = c.toLower := by
  by_cases h : c.toNat ≥ 65 ∧ c.toNat ≤ 90
  · have hv : (c.toNat + 32).isValidChar := Or.inl (by omega)
    simp only [Char.toLower]
    rw [if_pos h, if_neg]
    rw [char_toNat_ofNat_valid hv]
    omega
  · simp only [Char.toLower]
    rw [if_neg h, if_neg h]

theorem pyLower_idem (s : String) : pyLower (pyLower s) = pyLower s := by
  have key : ∀ l : List Char,
      (l.map Char.toLower).map Char.toLower = l.map Char.toLower := by
    intro l
    induction l with
    | nil => rfl
    | cons a l ih => simp [char_toLower_idem, ih]
  unfold pyLower
  exact congrArg String.mk (key s.toList)

/-- C10: `find_similar_domains` is case-insensitive in its first argument —
lower-casing the failing domain first changes nothing, because the function
lower-cases the domain (and each registry key) before any comparison. -/
theorem claim_C10_case_insensitive (d : String)
    (reg : List (String × String)) (n : ℕ) :
    find_similar_domains (pyLower d) reg n = find_similar_domains d reg n := by
  unfold find_similar_domains
  rw [pyLower_idem]

/-! ## Priority structure of the similar-domain suggestions -/

theorem tldFront_nil : tldFront [] :=
  ⟨[], [], rfl, by simp, by simp⟩

theorem tldFront_take {l : List (String × String × String)} (k : ℕ)
    (h : tldFront l) : tldFront (l.take k) := by
  obtain ⟨a, b, rfl, ha, hb⟩ := h
  exact ⟨a.take k, b.take (k - a.length), List.take_append_eq_append_take,
    fun x hx => ha x (List.take_subset _ _ hx),
    fun x hx => hb x (List.take_subset _ _ hx)⟩

theorem tldFront_cons {l : List (String × String × String)} (sd sip : String)
    (h : tldFront l) : tldFront ((sd, sip, "разный TLD") :: l) := by
  obtain ⟨a, b, rfl, ha, hb⟩ := h
  refine ⟨(sd, sip, "разный TLD") :: a, b, rfl, ?_, hb⟩
  intro x hx
  rcases List.mem_cons.mp hx with h1 | h2
  · rw [h1]
  · exact ha x h2

theorem tldFront_append {l : List (String × String × String)}
    (sd sip r : String) (hr : r ≠ "разный TLD") (h : tldFront l) :
    tldFront (l ++ [(sd, sip, r)]) := by
  obtain ⟨a, b, rfl, ha, hb⟩ := h
  refine ⟨a, b ++ [(sd, sip, r)], by rw [List.append_assoc], ha, ?_⟩
  intro x hx
  rcases List.mem_append.mp hx with h1 | h2
  · exact hb x h1
  · rw [List.mem_singleton.mp h2]
    exact hr

theorem fsd_loop_tldFront (base_name tld : String) (m : ℕ) :
    ∀ (xs : List (String × String)) (sugg : List (String × String × String)),
      tldFront sugg → tldFront (fsd_loop base_name tld m xs sugg) := by
  intro xs
  induction xs with
  | nil =>
    intro sugg h
    simpa only [fsd_loop] using tldFront_take m h
  | cons hd rest ih =>
    intro sugg h
    obtain ⟨sd, sip⟩ := hd
    simp only [fsd_loop]
    split_ifs <;>
      first
        | exact ih _ h
        | exact tldFront_take m (tldFront_cons sd sip h)
        | exact ih _ (tldFront_cons sd sip h)
        | exact tldFront_take m (tldFront_append sd sip _ (by decide) h)
        | exact ih _ (tldFront_append sd sip _ (by decide) h)

/-- C7: on registry `{"shop.com": "1.2.3.4"}` the failing domain `shop.net`
yields `("shop.com", "1.2.3.4", разный TLD)` — the source's rendering of
reason "different TLD" — as the sole, hence index-0, suggestion; and in
general every different-TLD match is inserted at the front, so the
different-TLD suggestions always form a front segment of the result, ahead of
all prefix (`похожее имя`) and substring (`частичное совпадение`) matches. -/
theorem claim_C7_similar_priority :
    find_similar_domains "shop.net" [("shop.com", "1.2.3.4")] 3 =
        [("shop.com", "1.2.3.4", "разный TLD")] ∧
    ∀ (domain : String) (reg : List (String × String)) (n : ℕ),
      tldFront (find_similar_domains domain reg n) := by
  refine ⟨by decide, fun domain reg n => ?_⟩
  unfold find_similar_domains fsd_after_lower
  dsimp only
  split_ifs
  · exact tldFront_nil
  · exact fsd_loop_tldFront _ _ _ _ _ tldFront_nil

/-! ## The variant probe -/

theorem firstTruthy_eq_none {l : List (Option String)}
    (h : ∀ o ∈ l, pyTruthy o = false) : firstTruthy l = none := by
  induction l with
  | nil => rfl
  | cons o rest ih =>
    simp only [firstTruthy]
    rw [if_neg, ih]
    · intro x hx
      exact h x (List.mem_cons_of_mem o hx)
    · simp [h o (List.mem_cons_self o rest)]

theorem tdv_sub_fst (env : ResolveEnv) (parts : List String) (s : ℚ) :
    (tdv_sub env parts s).1 =
      firstTruthy ((if 2 < parts.length then
          [parts.getD (parts.length - 2) "" ++ "." ++ parts.getLastD ""]
        else []).map fun v => exRes (resolve_domain env v 1)) := by
  unfold tdv_sub
  by_cases h : 2 < parts.length
  · rw [if_pos h]
    dsimp only
    set main := parts.getD (parts.length - 2) "" ++ "." ++ parts.getLastD "" with hmain
    rw [if_pos h]
    rcases hr : resolve_domain_run env main 1 s with ⟨r, s1, tr⟩
    have hres : resolve_domain env main 1 = r := by
      show (resolve_domain_run env main 1 0).1 = r
      rw [resolve_domain_run_irrel env main 1 0 s, hr]
    cases r with
    | ok ip =>
      simp only [List.map_cons, List.map_nil, firstTruthy, exRes, hres]
    | error e =>
      simp only [List.map_cons, List.map_nil, firstTruthy, exRes, hres]
      rw [if_neg (by simp [pyTruthy])]
  · simp [if_neg h, firstTruthy]

theorem tdv_loop_spec (env : ResolveEnv) (b o : String) (parts : List String) :
    ∀ (tlds : List String) (s : ℚ),
      (tdv_loop env b o parts tlds s).1 =
        firstTruthy
          (((tlds.filter fun tld => tld ≠ o).map fun tld =>
              exRes (resolve_domain env (b ++ "." ++ tld) 1))
            ++ ((if 2 < parts.length then
                  [parts.getD (parts.length - 2) "" ++ "." ++ parts.getLastD ""]
                else []).map fun v => exRes (resolve_domain env v 1))) := by
  intro tlds
  induction tlds with
  | nil =>
    intro s
    simp only [tdv_loop, List.filter_nil, List.map_nil, List.nil_append]
    exact tdv_sub_fst env parts s
  | cons tld rest ih =>
    intro s
    simp only [tdv_loop]
    by_cases ht : tld = o
    · rw [if_pos ht, List.filter_cons, if_neg (by simp [ht])]
      exact ih s
    · rw [if_neg ht, List.filter_cons, if_pos (by simp [ht])]
      rcases hr : resolve_domain_run env (b ++ "." ++ tld) 1 s with ⟨r, s1, tr⟩
      have hres : resolve_domain env (b ++ "." ++ tld) 1 = r := by
        show (resolve_domain_run env (b ++ "." ++ tld) 1 0).1 = r
        rw [resolve_domain_run_irrel env _ 1 0 s, hr]
      cases r with
      | ok ip =>
        simp only [List.map_cons, List.cons_append, firstTruthy, exRes, hres]
        by_cases hip : pyTruthy ip = true
        · rw [if_pos hip, if_pos hip]
        · rw [if_neg hip, if_neg hip]
          exact ih s1
      | error e =>
        simp only [List.map_cons, List.cons_append, firstTruthy, exRes, hres]
        rw [if_neg (by simp [pyTruthy])]
        exact ih s1

/-- C8: for a domain with at least two labels, the variant probe's answer is
the first truthy result of resolving, each with timeout 1, the variants
`base-name.candidate-TLD` for each candidate TLD in the fixed order, skipping
the original TLD, followed (for more than two labels) by the last two labels;
and it is absent when every attempt fails. -/
theorem claim_C8_variant_order (env : ResolveEnv) (d : String) (t s : ℚ)
    (h : 2 ≤ (pySplitDot d).length) :
    (try_domain_variants env d t s).1 =
      firstTruthy ((spec_variant_domains d).map fun v =>
        exRes (resolve_domain env v 1)) ∧
    ((∀ v ∈ spec_variant_domains d,
        pyTruthy (exRes (resolve_domain env v 1)) = false) →
      (try_domain_variants env d t s).1 = none) := by
  have main : (try_domain_variants env d t s).1 =
      firstTruthy ((spec_variant_domains d).map fun v =>
        exRes (resolve_domain env v 1)) := by
    unfold try_domain_variants spec_variant_domains
    dsimp only
    rw [if_neg (by omega)]
    rw [tdv_loop_spec]
    simp only [List.map_append, List.map_map]
    rfl
  refine ⟨main, fun hall => ?_⟩
  rw [main]
  refine firstTruthy_eq_none ?_
  intro x hx
  obtain ⟨v, hv, rfl⟩ := List.mem_map.mp hx
  exact hall v hv

/-- Witness for C8 on the two-label domain `ab.cd` in the all-failing
environment. -/
theorem claim_C8_variant_order_witness :
    (try_domain_variants envNone "ab.cd" 3 0).1 =
      firstTruthy ((spec_variant_domains "ab.cd").map fun v =>
        exRes (resolve_domain envNone v 1)) :=
  (claim_C8_variant_order envNone "ab.cd" 3 0 (by decide)).1

/-! ## The engine and the shared registry -/

/-- `resolve_domain_wrapper` never writes to the shared successful-domain
registry, whatever its arguments and whatever the environment answers. -/
theorem wrapper_registry (env : ResolveEnv) (args : List PyVal) (st : Shared) :
    (resolve_domain_wrapper env args st).2.successful_domains =
      st.successful_domains := by
  unfold resolve_domain_wrapper
  split
  · split
    · rfl
    · dsimp only
      split
      · rfl
      · split
        · rfl
        · rfl
  · rfl

/-- A well-formed five-tuple task runs to completion: it returns
`(domain, ip, index)` for some optional `ip`, adds one to the shared `total`
counter, adds one to exactly one of `success`/`failed` according to the
truthiness of `ip`, leaves the registry alone, and updates only the socket
default timeout besides. -/
theorem wrapper_effects (env : ResolveEnv) (d : String) (t : ℚ) (i : ℕ)
    (st : Shared) :
    ∃ (ip : Option String) (s' : ℚ),
      resolve_domain_wrapper env [.str d, .rat t, .nat i, .dictRef, .lock] st =
        (.ok (d, ip, i), { st with
          total := st.total + 1,
          success := st.success + (if pyTruthy ip then 1 else 0),
          failed := st.failed + (if pyTruthy ip then 0 else 1),
          sockTimeout := s' }) := by
  have hr : resolve_domain_run env d t st.sockTimeout
      = (.ok (backendChain env d t),
         (resolve_domain_run env d t st.sockTimeout).2.1,
         (resolve_domain_run env d t st.sockTimeout).2.2) := by
    rw [← resolve_domain_run_fst env d t st.sockTimeout]
  unfold resolve_domain_wrapper
  dsimp only
  rw [hr]
  dsimp only
  by_cases h0 : pyTruthy (backendChain env d t) = true
  · rw [if_pos h0]
    exact ⟨backendChain env d t, _, rfl⟩
  · rw [if_neg h0]
    split
    · rename_i hcond
      refine ⟨(match List.find? (fun x => env.inet_aton x.2.1)
            (find_similar_domains d st.successful_domains 3) with
          | some x => some x.2.1
          | none => backendChain env d t),
        (resolve_domain_run env d t st.sockTimeout).2.1, ?_⟩
      simp [hcond]
    · exact ⟨_, _, rfl⟩

/-- The four-element tuples actually submitted by `resolve_domains` make the
wrapper's unpacking raise `ValueError` before any effect. -/
theorem wrapper_bad4 (env : ResolveEnv) (d : String) (t : ℚ) (i : ℕ)
    (st : Shared) :
    resolve_domain_wrapper env [.str d, .rat t, .nat i, .dictRef] st =
      (.error .valueError, st) := rfl

theorem wrapper_bad0 (env : ResolveEnv) (st : Shared) :
    resolve_domain_wrapper env [] st = (.error .valueError, st) := rfl

/-- Whatever index is read from the submitted `domain_args`, the wrapper
raises `ValueError` and leaves the shared state unchanged. -/
theorem wrapper_domain_args (env : ResolveEnv) (domains : List String)
    (t : ℚ) (st : Shared) (i : ℕ) :
    resolve_domain_wrapper env
      ((domains.enum.map fun p =>
        [PyVal.str p.2, PyVal.rat t, PyVal.nat p.1, PyVal.dictRef]).getD i [])
      st = (.error .valueError, st) := by
  rcases hg : (domains.enum.map fun p =>
      [PyVal.str p.2, PyVal.rat t, PyVal.nat p.1, PyVal.dictRef]).get? i
    with _ | a
  · have hd : (domains.enum.map fun p =>
        [PyVal.str p.2, PyVal.rat t, PyVal.nat p.1, PyVal.dictRef]).getD i []
        = [] := by
      unfold List.getD
      rw [hg]
      rfl
    rw [hd, wrapper_bad0]
  · have hmem := List.get?_mem hg
    obtain ⟨p, hp, rfl⟩ := List.mem_map.mp hmem
    have hd : (domains.enum.map fun p =>
        [PyVal.str p.2, PyVal.rat t, PyVal.nat p.1, PyVal.dictRef]).getD i []
        = [PyVal.str p.2, PyVal.rat t, PyVal.nat p.1, PyVal.dictRef] := by
      unfold List.getD
      rw [hg]
      rfl
    rw [hd, wrapper_bad4]

/-- Running the whole batch of submitted tasks: every future holds
`ValueError` and the shared state is untouched. -/
theorem run_tasks_bad (env : ResolveEnv) (domains : List String) (t : ℚ) :
    ∀ (perm : List ℕ) (st : Shared),
      run_tasks env
        (domains.enum.map fun p =>
          [PyVal.str p.2, PyVal.rat t, PyVal.nat p.1, PyVal.dictRef]) perm st =
        (perm.map fun _ => .error .valueError, st) := by
  intro perm
  induction perm with
  | nil => intro st; rfl
  | cons i rest ih =>
    intro st
    simp only [run_tasks]
    rw [wrapper_domain_args env domains t st i, ih st]
    rfl

/-- After `resolve_domains`, the shared state holds the reset counters and the
fresh empty registry: no task got past its unpacking. -/
theorem resolve_domains_state (env : ResolveEnv) (completion : List ℕ)
    (domains : List String) (t : ℚ) (mw : Option ℕ) (fb : Bool)
    (st : Shared) :
    (resolve_domains env completion domains t mw fb st).2 =
      { st with total := 0, success := 0, failed := 0,
                successful_domains := [] } := by
  unfold resolve_domains
  dsimp only
  rw [run_tasks_bad env domains t completion]
  split <;> rfl

/-- C1 is right about the intent but the code crashes instead: the wrapper
unpacks five values while `resolve_domains` submits four-element tuples, so
for every non-empty input and every completion order the first collected
future re-raises `ValueError` and `resolve_domains` propagates it instead of
returning the ordered result list. -/
theorem claim_C1_batch_raises (env : ResolveEnv) (completion : List ℕ)
    (domains : List String) (t : ℚ) (mw : Option ℕ) (fb : Bool) (st : Shared)
    (h1 : domains ≠ [])
    (h2 : completion.Perm (List.range domains.length)) :
    (resolve_domains env completion domains t mw fb st).1 =
      .error .valueError := by
  obtain ⟨i, rest, rfl⟩ : ∃ i rest, completion = i :: rest := by
    cases completion with
    | nil =>
      exfalso
      have hr : List.range domains.length = [] := (h2.nil_eq).symm
      rw [List.range_eq_nil] at hr
      exact h1 (List.length_eq_zero.mp hr)
    | cons i rest => exact ⟨i, rest, rfl⟩
  unfold resolve_domains
  dsimp only
  rw [run_tasks_bad env domains t (i :: rest)]
  rfl

/-- Witness for C1 at the one-domain batch. -/
theorem claim_C1_batch_raises_witness :
    (resolve_domains envNone [0] ["a.com"] 3 (some 50) true stInit).1 =
      .error .valueError :=
  claim_C1_batch_raises envNone [0] ["a.com"] 3 (some 50) true stInit
    (by decide) (by decide)

/-- C2 is right about the intent but the code never performs the write: the
wrapper leaves the registry untouched for every input (first conjunct), and
in particular a task that resolves `a.com` to `1.2.3.4` and finishes
successfully still leaves `successful_domains` empty (remaining conjuncts);
the planned update spot in `resolve_domains` is a `pass` placeholder. -/
theorem claim_C2_registry_never_written :
    (∀ (env : ResolveEnv) (args : List PyVal) (st : Shared),
      (resolve_domain_wrapper env args st).2.successful_domains =
        st.successful_domains) ∧
    (resolve_domain_wrapper envOk
        [.str "a.com", .rat 3, .nat 0, .dictRef, .lock] stInit).1 =
      .ok ("a.com", some "1.2.3.4", 0) ∧
    (resolve_domain_wrapper envOk
        [.str "a.com", .rat 3, .nat 0, .dictRef, .lock] stInit).2.success = 1 ∧
    (resolve_domain_wrapper envOk
        [.str "a.com", .rat 3, .nat 0, .dictRef, .lock]
        stInit).2.successful_domains = [] :=
  ⟨wrapper_registry, rfl, rfl, rfl⟩

/-- C3 is right about the intent — a task that does run its body increments
`total` and exactly one of `success`/`failed` (last conjunct) — but on the
actual batch no task gets that far: every task dies at unpacking, so at the
(exceptional) end of the batch all counters are zero and
`attempted = number of input domains` fails for every non-empty input. -/
theorem claim_C3_counters (env : ResolveEnv) (completion : List ℕ)
    (domains : List String) (t : ℚ) (mw : Option ℕ) (fb : Bool) (st : Shared)
    (h1 : domains ≠ [])
    (h2 : completion.Perm (List.range domains.length)) :
    (resolve_domains env completion domains t mw fb st).2.success +
        (resolve_domains env completion domains t mw fb st).2.failed =
      (resolve_domains env completion domains t mw fb st).2.total ∧
    (resolve_domains env completion domains t mw fb st).2.total ≠
      domains.length ∧
    (∀ (env' : ResolveEnv) (d : String) (t' : ℚ) (i : ℕ) (st' : Shared),
      (resolve_domain_wrapper env'
          [.str d, .rat t', .nat i, .dictRef, .lock] st').2.total =
        st'.total + 1 ∧
      (resolve_domain_wrapper env'
          [.str d, .rat t', .nat i, .dictRef, .lock] st').2.success +
        (resolve_domain_wrapper env'
          [.str d, .rat t', .nat i, .dictRef, .lock] st').2.failed =
        st'.success + st'.failed + 1) := by
  refine ⟨?_, ?_, ?_⟩
  · rw [resolve_domains_state]
    rfl
  · rw [resolve_domains_state]
    show (0 : ℕ) ≠ domains.length
    have := List.length_pos.mpr h1
    omega
  · intro env' d t' i st'
    obtain ⟨ip, s', heq⟩ := wrapper_effects env' d t' i st'
    rw [heq]
    refine ⟨rfl, ?_⟩
    show st'.success + (if pyTruthy ip = true then 1 else 0) +
      (st'.failed + (if pyTruthy ip = true then 0 else 1)) =
        st'.success + st'.failed + 1
    cases hip : pyTruthy ip <;> simp <;> omega

/-- Witness for C3 at the one-domain batch: the attempted counter stays 0
while the batch holds one domain. -/
theorem claim_C3_counters_witness :
    (resolve_domains envNone [0] ["a.com"] 3 (some 50) true stInit).2.total ≠
      (["a.com"] : List String).length :=
  (claim_C3_counters envNone [0] ["a.com"] 3 (some 50) true stInit
    (by decide) (by decide)).2.1

end HostsGen
